import Mathlib

/-!
Verification development for the AmmoSystemDev plugin (src/AmmoSystemDev.js).

Shallow embedding conventions:
- Notetag metadata is modelled post-parse: each Option field holds the result
  of the corresponding getNotetagNumber / getNotetagValue / info-parser call,
  with none standing for the null that those helpers return when the tag is
  absent or malformed.
- JS numbers from tags are modelled as ℚ.  MultiShot counts are integral in
  the plugin's usage, modelled as ℤ so that Math.pow receives a natural
  exponent; JS Math.round x is the floor of (x + 1/2).
- The party inventory and the game-variable store are carried in a GameState
  record; functions that mutate them return the updated record.
- The 0-falsiness of JS numbers is made explicit where the source tests a
  value for truthiness.
-/

structure AmmoVarEntry where
  ammoType : String
  variableId : Nat
deriving DecidableEq

structure Item where
  id : Nat
  ammoType : Option String
  ammoAtk : Option ℚ
  ammoHitRate : Option ℚ
  ammoCrit : Option ℚ
  ammoDmgType : Option ℚ
  ammoAnimationTag : Option Nat
  ammoStates : List (Nat × ℚ)
deriving DecidableEq

structure Weapon where
  ammoType : Option String
  rangedHit : Option ℚ
  rangedCrit : Option ℚ
  animationId : Nat
deriving DecidableEq

structure ActionItem where
  successRate : ℚ
  isAttack : Bool
  isSkill : Bool
  multiShot : Option ℤ
  strictAmmo : Option ℚ
  noAmmoAnimation : Option Nat
  lowAmmoAnim : Option (ℚ × Nat)
  noteHasUseAmmo : Bool
  noteHasStrictAmmo : Bool
  noteHasMultiShot : Bool
deriving DecidableEq

structure GameState where
  gameVars : Nat → Nat
  partyItems : List (Item × Nat)
  dataItems : Nat → Option Item

structure ActorState where
  battleWeapon : Option Weapon
  originalWeaponData : Option Weapon
  baseHitStat : ℚ
  tempAmmoAtk : ℚ
  tempAmmoStateInfo : List (Nat × ℚ)
  tempAmmoElementId : Option ℚ
  tempRangedHit : ℚ
  tempAmmoHit : ℚ
  tempRangedCrit : ℚ
  tempAmmoCrit : ℚ
  isApplyingTempAmmoParams : Bool
  ammoToConsumeCount : ℤ
deriving DecidableEq

/-- Game_Variables.setValue. -/
def setVariable (s : GameState) (vid val : Nat) : GameState :=
  { s with gameVars := fun k => if k = vid then val else s.gameVars k }

/-- Game_Party.numItems for an item, looked up by database id. -/
def numItems (s : GameState) (it : Item) : Nat :=
  match s.partyItems.find? (fun p => p.1.id == it.id) with
  | some p => p.2
  | none => 0

/-- Game_Party.loseItem: the container count clamps at zero. -/
def loseItem (s : GameState) (it : Item) (n : Nat) : GameState :=
  { s with partyItems :=
      s.partyItems.map (fun p => if p.1.id == it.id then (p.1, p.2 - n) else p) }

/-- Game_Party.items(): the owned items, in stable container order. -/
def partyOwnedItems (s : GameState) : List Item :=
  (s.partyItems.filter (fun p => decide (0 < p.2))).map (fun p => p.1)

/-- AmmoSystem.getVariableIdForAmmoType: find the configured entry for the
ammo type; returns null when no entry matches (a null type matches nothing
since configured entries carry strings). -/
def getVariableIdForAmmoType (cfg : List AmmoVarEntry) (t : Option String) : Option Nat :=
  (cfg.find? (fun e => some e.ammoType == t)).map (fun e => e.variableId)

/-- AmmoSystem.findBestMatchingAmmoItem: first owned item whose Ammo tag
equals the required type. -/
def findBestMatchingAmmoItem (s : GameState) (t : Option String) : Option Item :=
  (partyOwnedItems s).find? (fun it => it.ammoType == t)

/-- The item referenced by the selection variable: dataItems lookup when the
stored id is positive, else null. -/
def slotAmmoItem (s : GameState) (vid : Nat) : Option Item :=
  if 0 < s.gameVars vid then s.dataItems (s.gameVars vid) else none

/-- AmmoSystem.hasValidAmmo.  The leading JS test (!variableId) is true both
when no entry is configured and when the configured variable id is 0. -/
def hasValidAmmo (cfg : List AmmoVarEntry) (s : GameState) (t : Option String) : Bool :=
  match getVariableIdForAmmoType cfg t with
  | none => true
  | some vid =>
    if vid = 0 then true
    else
      match slotAmmoItem s vid with
      | some it =>
        if it.ammoType = t ∧ 0 < numItems s it then true
        else (findBestMatchingAmmoItem s t).isSome
      | none => (findBestMatchingAmmoItem s t).isSome

/-- AmmoSystem.ensureValidAmmoSelected: returns the selected item and the
updated game state (the selection variable is rewritten on the fallback
path, to the found id or to 0). -/
def ensureValidAmmoSelected (cfg : List AmmoVarEntry) (s : GameState) (t : Option String) :
    Option Item × GameState :=
  match getVariableIdForAmmoType cfg t with
  | none => (none, s)
  | some vid =>
    if vid = 0 then (none, s)
    else
      match slotAmmoItem s vid with
      | some it =>
        if it.ammoType = t ∧ 0 < numItems s it then (some it, s)
        else
          match findBestMatchingAmmoItem s t with
          | some best => (some best, setVariable s vid best.id)
          | none => (none, setVariable s vid 0)
      | none =>
        match findBestMatchingAmmoItem s t with
        | some best => (some best, setVariable s vid best.id)
        | none => (none, setVariable s vid 0)

/-- JS Math.round. -/
def jsRound (x : ℚ) : ℤ := ⌊x + 1 / 2⌋

/-- The patched Game_Actor.xparam at id 0: base hit stat plus the temporary
ranged and ammo hit deltas while the overlay is armed. -/
def xparamHit (a : ActorState) : ℚ :=
  if a.isApplyingTempAmmoParams then a.baseHitStat + a.tempRangedHit + a.tempAmmoHit
  else a.baseHitStat

/-- RangedHit tag of the working battle weapon, 0 when absent.  A null
battle weapon is treated as tagless (that access would throw in the JS and
is unreachable through the plugin's own flow, which guards on the weapon). -/
def weaponNoteRangedHit (w : Option Weapon) : ℚ :=
  (w.bind Weapon.rangedHit).getD 0

/-- RangedCrit tag of the working battle weapon, 0 when absent. -/
def weaponNoteRangedCrit (w : Option Weapon) : ℚ :=
  (w.bind Weapon.rangedCrit).getD 0

/-- The clamp applied to the simulated single-shot hit chance:
Math.max(0.01, Math.min(0.95, x)). -/
def clampHitChance (x : ℚ) : ℚ := max (1 / 100) (min (95 / 100) x)

/-- Probability that at least one of n independent shots with per-shot hit
probability p lands: 1 - (1 - p)^n. -/
def probAtLeastOneHit (p : ℚ) (n : ℕ) : ℚ := 1 - (1 - p) ^ n

/-- The multi-shot attack delta: Math.round(numShots * baseAmmoAtk * probAtLeastOneHit). -/
def multiShotAtkDelta (shots : ℕ) (flat p : ℚ) : ℤ :=
  jsRound ((shots : ℚ) * flat * probAtLeastOneHit p shots)

/-- The geometric accumulation a * (1 - r^shots) / (1 - r) with ratio r = 0.5. -/
def geomSeriesBonus (a : ℚ) (shots : ℕ) : ℚ :=
  a * (1 - (1 / 2 : ℚ) ^ shots) / (1 - 1 / 2)

/-- Whether the low-ammo modifier triggers: a well-formed LowAmmoAnimation
pair is present on the action and the current owned count is below its
quantity. -/
def lowStockActive (action : ActionItem) (owned : ℕ) : Bool :=
  match action.lowAmmoAnim with
  | some qa => decide ((owned : ℚ) < qa.1)
  | none => false

/-- Game_Actor.applyAmmoEffects.  The caller passes a non-null ammo item.
In the branch where MultiShot is configured but numShots is not positive the
source skips every recalculation, so the attack delta keeps its prior value,
the state list local stays empty, the hit and crit bonuses keep their
initial tag-derived values, and ammoToConsume keeps its initial value 1. -/
def applyAmmoEffects (a : ActorState) (ammoItem : Item) (action : ActionItem)
    (s : GameState) : ActorState :=
  let baseAmmoAtk : ℚ := ammoItem.ammoAtk.getD 0
  let baseStates := ammoItem.ammoStates
  let msCount : ℤ := (action.multiShot).getD 0
  if 0 < msCount then
    let numShots : ℤ := min msCount ((numItems s ammoItem : ℤ))
    if 0 < numShots then
      let shots := numShots.toNat
      let skillSuccessRate := action.successRate / 100
      let baseHit := xparamHit a
      let rangedHitBonus := weaponNoteRangedHit a.battleWeapon / 100
      let ammoHitBonusForSim := (ammoItem.ammoHitRate.getD 0) / 100
      let singleShotHitChance :=
        clampHitChance ((baseHit + rangedHitBonus + ammoHitBonusForSim) * skillSuccessRate)
      let finalStates := (List.replicate shots baseStates).flatten
      let initialHitRate := ammoItem.ammoHitRate.getD 0
      let hitBonus : ℚ :=
        if 0 < initialHitRate then
          let m : ℚ := if lowStockActive action (numItems s ammoItem) then 1 / 2 else 3 / 4
          let aHit := initialHitRate * m
          if 0 < aHit then geomSeriesBonus aHit shots / 100 else 0
        else (ammoItem.ammoHitRate.getD 0) / 100
      let initialCritRate := ammoItem.ammoCrit.getD 0
      let critBonus : ℚ :=
        if 0 < initialCritRate then
          let m : ℚ := if lowStockActive action (numItems s ammoItem) then 33 / 100 else 1 / 2
          let aCrit := initialCritRate * m
          if 0 < aCrit then geomSeriesBonus aCrit shots / 100 else 0
        else (ammoItem.ammoCrit.getD 0) / 100
      { a with
        tempAmmoAtk := ((multiShotAtkDelta shots baseAmmoAtk singleShotHitChance : ℤ) : ℚ)
        tempAmmoStateInfo := finalStates
        tempAmmoHit := hitBonus
        tempAmmoCrit := critBonus
        tempRangedHit := weaponNoteRangedHit a.battleWeapon / 100
        tempRangedCrit := weaponNoteRangedCrit a.battleWeapon / 100
        tempAmmoElementId := ammoItem.ammoDmgType
        ammoToConsumeCount := numShots
        isApplyingTempAmmoParams := true }
    else
      { a with
        tempAmmoStateInfo := []
        tempAmmoHit := (ammoItem.ammoHitRate.getD 0) / 100
        tempAmmoCrit := (ammoItem.ammoCrit.getD 0) / 100
        tempRangedHit := weaponNoteRangedHit a.battleWeapon / 100
        tempRangedCrit := weaponNoteRangedCrit a.battleWeapon / 100
        tempAmmoElementId := ammoItem.ammoDmgType
        ammoToConsumeCount := 1
        isApplyingTempAmmoParams := true }
  else
    { a with
      tempAmmoAtk := baseAmmoAtk
      tempAmmoStateInfo := baseStates
      tempAmmoHit := (ammoItem.ammoHitRate.getD 0) / 100
      tempAmmoCrit := (ammoItem.ammoCrit.getD 0) / 100
      tempRangedHit := weaponNoteRangedHit a.battleWeapon / 100
      tempRangedCrit := weaponNoteRangedCrit a.battleWeapon / 100
      tempAmmoElementId := ammoItem.ammoDmgType
      ammoToConsumeCount := 1
      isApplyingTempAmmoParams := true }

/-- Game_Actor.resetAmmoEffects: restore the working weapon copy from the
pristine copy when it exists, zero every delta, disarm the overlay. -/
def resetAmmoEffects (a : ActorState) : ActorState :=
  { a with
    battleWeapon :=
      match a.originalWeaponData with
      | some w => some w
      | none => a.battleWeapon
    tempAmmoAtk := 0
    tempAmmoStateInfo := []
    tempAmmoElementId := none
    tempRangedHit := 0
    tempAmmoHit := 0
    tempRangedCrit := 0
    tempAmmoCrit := 0
    ammoToConsumeCount := 0
    isApplyingTempAmmoParams := false }

/-- The patched Game_Actor.weapons: in battle, with a working battle weapon
present and at least one real weapon equipped, the working copy replaces the
first real weapon. -/
def actorWeapons (a : ActorState) (inBattle : Bool) (realWeapons : List Weapon) : List Weapon :=
  match a.battleWeapon with
  | some bw =>
    if inBattle = true ∧ realWeapons ≠ [] then bw :: realWeapons.drop 1
    else realWeapons
  | none => realWeapons

/-- The eligibility test in BattleManager.startAction: a basic attack, or a
note carrying UseAmmo, StrictAmmo or MultiShot text. -/
def isAmmoAction (action : ActionItem) : Bool :=
  action.isAttack || action.noteHasUseAmmo || action.noteHasStrictAmmo || action.noteHasMultiShot

structure StartOutcome where
  game : GameState
  actor : ActorState
  overrideAnimationId : Nat

/-- The ammo portion of BattleManager.startAction, for an actor subject with
a current action.  Returns the updated game state, the updated actor, and
the override animation id written onto the action (0 when none was set). -/
def startAction (cfg : List AmmoVarEntry) (s : GameState) (a : ActorState)
    (inBattle : Bool) (realWeapons : List Weapon) (action : ActionItem) : StartOutcome :=
  match (actorWeapons a inBattle realWeapons).head? with
  | none => ⟨s, a, 0⟩
  | some weapon =>
    match weapon.ammoType with
    | none => ⟨s, a, 0⟩
    | some t =>
      if t ≠ "" ∧ isAmmoAction action = true then
        let sel := ensureValidAmmoSelected cfg s (some t)
        let s1 := sel.2
        let a1 := resetAmmoEffects a
        match sel.1 with
        | some ammo =>
          let a2 := applyAmmoEffects a1 ammo action s1
          if action.isAttack = true then
            match ammo.ammoAnimationTag with
            | some aid =>
              if aid ≠ 0 ∧ a2.battleWeapon.isSome = true then
                ⟨s1, { a2 with battleWeapon :=
                  a2.battleWeapon.map (fun w => { w with animationId := aid }) }, 0⟩
              else ⟨s1, a2, 0⟩
            | none => ⟨s1, a2, 0⟩
          else if action.isSkill = true then
            let msCount : ℤ := (action.multiShot).getD 0
            match action.lowAmmoAnim with
            | some qa =>
              if 0 < msCount ∧ qa.1 < (msCount : ℚ) ∧ (numItems s1 ammo : ℚ) < qa.1 ∧ 0 < qa.2 then
                ⟨s1, a2, qa.2⟩
              else ⟨s1, a2, 0⟩
            | none => ⟨s1, a2, 0⟩
          else ⟨s1, a2, 0⟩
        | none =>
          if action.isSkill = true then
            match action.noAmmoAnimation with
            | some aid => if aid ≠ 0 then ⟨s1, a1, aid⟩ else ⟨s1, a1, 0⟩
            | none => ⟨s1, a1, 0⟩
          else ⟨s1, a1, 0⟩
      else ⟨s, a, 0⟩

/-- The ammo portion of BattleManager.endAction: clear the action's override
animation id, and reset the subject's ammo effects when the subject is an
actor whose overlay is armed. -/
def endActionHook (overrideAnimationId : Nat) (a : ActorState) (subjectIsActor : Bool) :
    Nat × ActorState :=
  (if overrideAnimationId ≠ 0 then 0 else overrideAnimationId,
   if subjectIsActor = true ∧ a.isApplyingTempAmmoParams = true then resetAmmoEffects a else a)

/-- The patched Game_Action.itemHit.  The defaultHit argument stands for the
value the original engine computation would return for this action and
target. -/
def itemHit (cfg : List AmmoVarEntry) (s : GameState) (a : ActorState)
    (subjectIsActor inBattle : Bool) (realWeapons : List Weapon)
    (action : ActionItem) (defaultHit : ℚ) : ℚ :=
  if subjectIsActor = true ∧ action.isSkill = true then
    match action.strictAmmo with
    | some strictVal =>
      match (actorWeapons a inBattle realWeapons).head? with
      | some w =>
        match w.ammoType with
        | some t =>
          if t ≠ "" ∧ hasValidAmmo cfg s (some t) = false then strictVal / 100
          else defaultHit
        | none => defaultHit
      | none => defaultHit
    | none => defaultHit
  else defaultHit

/-- One roll of the overlay's state list against the Math.random draws made
for this target: entry i is inflicted when its draw is below its chance. -/
def rollStates (info : List (Nat × ℚ)) (draws : List ℚ) : List Nat :=
  ((info.zip draws).filter (fun p => decide (p.2 < p.1.2))).map (fun p => p.1.1)

/-- The delivered result for one target, with the uniform draws consumed by
the state-infliction loop. -/
structure TargetResult where
  isHit : Bool
  isEnemy : Bool
  isAlive : Bool
  draws : List ℚ

structure ApplyOutcome where
  game : GameState
  actor : ActorState
  inflicted : List Nat
  deducted : Option (Nat × ℤ)

/-- The ammo portion of Game_Action.apply for one target: on a hit, roll the
state list, then if the pending consumption count is positive re-select the
ammo for the weapon's type, deduct the pending count of it, and zero the
count; on a miss, just zero the count.  The deducted field records the
(item id, count) passed to loseItem, when a deduction happened. -/
def applyHook (cfg : List AmmoVarEntry) (s : GameState) (a : ActorState)
    (subjectIsActor inBattle : Bool) (realWeapons : List Weapon)
    (t : TargetResult) : ApplyOutcome :=
  if subjectIsActor = true ∧ a.isApplyingTempAmmoParams = true then
    if t.isHit = true then
      let inflicted :=
        if a.tempAmmoStateInfo ≠ [] ∧ t.isEnemy = true ∧ t.isAlive = true then
          rollStates a.tempAmmoStateInfo t.draws
        else []
      if 0 < a.ammoToConsumeCount then
        match (actorWeapons a inBattle realWeapons).head? with
        | some w =>
          match ensureValidAmmoSelected cfg s w.ammoType with
          | (some it, s1) =>
            ⟨loseItem s1 it a.ammoToConsumeCount.toNat,
             { a with ammoToConsumeCount := 0 }, inflicted,
             some (it.id, a.ammoToConsumeCount)⟩
          | (none, s1) => ⟨s1, { a with ammoToConsumeCount := 0 }, inflicted, none⟩
        | none => ⟨s, { a with ammoToConsumeCount := 0 }, inflicted, none⟩
      else ⟨s, a, inflicted, none⟩
    else ⟨s, { a with ammoToConsumeCount := 0 }, [], none⟩
  else ⟨s, a, [], none⟩

/-- Repeated Apply invocations of a single action, one per target in order.
The third component accumulates every count passed to loseItem. -/
def applyToTargets (cfg : List AmmoVarEntry) (s : GameState) (a : ActorState)
    (subjectIsActor inBattle : Bool) (realWeapons : List Weapon) :
    List TargetResult → GameState × ActorState × ℤ
  | [] => (s, a, 0)
  | t :: ts =>
    let o := applyHook cfg s a subjectIsActor inBattle realWeapons t
    let rest := applyToTargets cfg o.game o.actor subjectIsActor inBattle realWeapons ts
    (rest.1, rest.2.1, ((o.deducted.map Prod.snd).getD 0) + rest.2.2)

/-- The item that a commit at Apply time would select: head weapon's ammo
type fed through ensureValidAmmoSelected on the current game state. -/
def commitSelection (cfg : List AmmoVarEntry) (s : GameState) (a : ActorState)
    (inBattle : Bool) (realWeapons : List Weapon) : Option Item :=
  match (actorWeapons a inBattle realWeapons).head? with
  | some w => (ensureValidAmmoSelected cfg s w.ammoType).1
  | none => none

/-- The per-shot hit probability exactly as the specification words it:
clamp the stat sum to the band first, then scale by the success rate.  Kept
separate from the source-derived computation, which scales first and clamps
the product. -/
def specSingleShotHitChance (baseHit rangedHitBonus ammoHitBonus successRate : ℚ) : ℚ :=
  clampHitChance (baseHit + rangedHitBonus + ammoHitBonus) * (successRate / 100)

def c7state : GameState :=
  { gameVars := fun _ => 0
    partyItems := []
    dataItems := fun _ => none }

def c5cfg : List AmmoVarEntry := [⟨"Arrow", 10⟩]

def c5state : GameState :=
  { gameVars := fun _ => 0
    partyItems := []
    dataItems := fun _ => none }

def c5weapon : Weapon :=
  { ammoType := some "Arrow", rangedHit := none, rangedCrit := none, animationId := 1 }

def c5actor : ActorState :=
  { battleWeapon := some c5weapon
    originalWeaponData := some c5weapon
    baseHitStat := 1
    tempAmmoAtk := 0
    tempAmmoStateInfo := []
    tempAmmoElementId := none
    tempRangedHit := 0
    tempAmmoHit := 0
    tempRangedCrit := 0
    tempAmmoCrit := 0
    isApplyingTempAmmoParams := false
    ammoToConsumeCount := 0 }

def c5action : ActionItem :=
  { successRate := 100
    isAttack := false
    isSkill := true
    multiShot := none
    strictAmmo := some 30
    noAmmoAnimation := none
    lowAmmoAnim := none
    noteHasUseAmmo := false
    noteHasStrictAmmo := true
    noteHasMultiShot := false }

def c2item : Item :=
  { id := 1, ammoType := some "Arrow", ammoAtk := some 1000, ammoHitRate := none
    ammoCrit := none, ammoDmgType := none, ammoAnimationTag := none, ammoStates := [] }

def c2action : ActionItem :=
  { successRate := 1, isAttack := false, isSkill := true, multiShot := some 1
    strictAmmo := none, noAmmoAnimation := none, lowAmmoAnim := none
    noteHasUseAmmo := false, noteHasStrictAmmo := false, noteHasMultiShot := true }

def c2state : GameState :=
  { gameVars := fun _ => 0
    partyItems := [(c2item, 3)]
    dataItems := fun _ => none }

def c2actor : ActorState :=
  { battleWeapon := some { ammoType := some "Arrow", rangedHit := none, rangedCrit := none, animationId := 1 }
    originalWeaponData := none
    baseHitStat := 1 / 2
    tempAmmoAtk := 0
    tempAmmoStateInfo := []
    tempAmmoElementId := none
    tempRangedHit := 0
    tempAmmoHit := 0
    tempRangedCrit := 0
    tempAmmoCrit := 0
    isApplyingTempAmmoParams := false
    ammoToConsumeCount := 0 }

def c2exItem : Item :=
  { id := 2, ammoType := some "Arrow", ammoAtk := some 8, ammoHitRate := some 20
    ammoCrit := none, ammoDmgType := none, ammoAnimationTag := none, ammoStates := [] }

def c2exAction : ActionItem :=
  { successRate := 90, isAttack := false, isSkill := true, multiShot := some 5
    strictAmmo := none, noAmmoAnimation := none, lowAmmoAnim := none
    noteHasUseAmmo := false, noteHasStrictAmmo := false, noteHasMultiShot := true }

def c2exState : GameState :=
  { gameVars := fun _ => 0
    partyItems := [(c2exItem, 3)]
    dataItems := fun _ => none }

def c2exActor : ActorState :=
  { battleWeapon := some { ammoType := some "Arrow", rangedHit := some 10, rangedCrit := none, animationId := 1 }
    originalWeaponData := none
    baseHitStat := 1 / 2
    tempAmmoAtk := 0
    tempAmmoStateInfo := []
    tempAmmoElementId := none
    tempRangedHit := 0
    tempAmmoHit := 0
    tempRangedCrit := 0
    tempAmmoCrit := 0
    isApplyingTempAmmoParams := false
    ammoToConsumeCount := 0 }

def c3item : Item :=
  { id := 1, ammoType := some "Arrow", ammoAtk := some 8, ammoHitRate := some 20
    ammoCrit := some 10, ammoDmgType := none, ammoAnimationTag := none, ammoStates := [] }

def c3action : ActionItem :=
  { successRate := 100, isAttack := false, isSkill := true, multiShot := some 5
    strictAmmo := none, noAmmoAnimation := none, lowAmmoAnim := none
    noteHasUseAmmo := false, noteHasStrictAmmo := false, noteHasMultiShot := true }

def c3state : GameState :=
  { gameVars := fun _ => 0
    partyItems := []
    dataItems := fun _ => none }

def c3actor : ActorState :=
  { battleWeapon := some { ammoType := some "Arrow", rangedHit := none, rangedCrit := none, animationId := 1 }
    originalWeaponData := none
    baseHitStat := 1 / 2
    tempAmmoAtk := 0
    tempAmmoStateInfo := []
    tempAmmoElementId := none
    tempRangedHit := 0
    tempAmmoHit := 0
    tempRangedCrit := 0
    tempAmmoCrit := 0
    isApplyingTempAmmoParams := false
    ammoToConsumeCount := 0 }

def c4item : Item :=
  { id := 1, ammoType := some "Arrow", ammoAtk := some 8, ammoHitRate := some 20
    ammoCrit := none, ammoDmgType := none, ammoAnimationTag := none, ammoStates := [] }

def c4action : ActionItem :=
  { successRate := 100, isAttack := false, isSkill := true, multiShot := some 5
    strictAmmo := none, noAmmoAnimation := none, lowAmmoAnim := none
    noteHasUseAmmo := false, noteHasStrictAmmo := false, noteHasMultiShot := true }

def c4state : GameState :=
  { gameVars := fun _ => 0
    partyItems := [(c4item, 3)]
    dataItems := fun _ => none }

def c4actor : ActorState :=
  { battleWeapon := some { ammoType := some "Arrow", rangedHit := none, rangedCrit := none, animationId := 1 }
    originalWeaponData := none
    baseHitStat := 1 / 2
    tempAmmoAtk := 0
    tempAmmoStateInfo := []
    tempAmmoElementId := none
    tempRangedHit := 0
    tempAmmoHit := 0
    tempRangedCrit := 0
    tempAmmoCrit := 0
    isApplyingTempAmmoParams := false
    ammoToConsumeCount := 0 }

def c1cfg : List AmmoVarEntry := [⟨"Arrow", 10⟩]

def c1weapon : Weapon :=
  { ammoType := some "Arrow", rangedHit := none, rangedCrit := none, animationId := 1 }

def c1arrow : Item :=
  { id := 5, ammoType := some "Arrow", ammoAtk := some 8, ammoHitRate := none
    ammoCrit := none, ammoDmgType := none, ammoAnimationTag := none, ammoStates := [] }

def c1state : GameState :=
  { gameVars := fun k => if k = 10 then 5 else 0
    partyItems := [(c1arrow, 10)]
    dataItems := fun k => if k = 5 then some c1arrow else none }

def c1actorOf (count : ℤ) : ActorState :=
  { battleWeapon := some c1weapon
    originalWeaponData := some c1weapon
    baseHitStat := 1 / 2
    tempAmmoAtk := 8
    tempAmmoStateInfo := []
    tempAmmoElementId := none
    tempRangedHit := 0
    tempAmmoHit := 0
    tempRangedCrit := 0
    tempAmmoCrit := 0
    isApplyingTempAmmoParams := true
    ammoToConsumeCount := count }

def c1miss : TargetResult := { isHit := false, isEnemy := true, isAlive := true, draws := [] }

def c1hit : TargetResult := { isHit := true, isEnemy := true, isAlive := true, draws := [] }

def c9cfg : List AmmoVarEntry := [⟨"Arrow", 10⟩]

def c9weapon : Weapon :=
  { ammoType := some "Arrow", rangedHit := none, rangedCrit := none, animationId := 1 }

def c9arrow : Item :=
  { id := 5, ammoType := some "Arrow", ammoAtk := some 8, ammoHitRate := none
    ammoCrit := none, ammoDmgType := none, ammoAnimationTag := none, ammoStates := [] }

def c9state : GameState :=
  { gameVars := fun k => if k = 10 then 5 else 0
    partyItems := [(c9arrow, 10)]
    dataItems := fun k => if k = 5 then some c9arrow else none }

def c9actor : ActorState :=
  { battleWeapon := some c9weapon
    originalWeaponData := some c9weapon
    baseHitStat := 1 / 2
    tempAmmoAtk := 8
    tempAmmoStateInfo := []
    tempAmmoElementId := none
    tempRangedHit := 0
    tempAmmoHit := 0
    tempRangedCrit := 0
    tempAmmoCrit := 0
    isApplyingTempAmmoParams := true
    ammoToConsumeCount := 3 }

def c9miss : TargetResult := { isHit := false, isEnemy := true, isAlive := true, draws := [] }

def c9hit : TargetResult := { isHit := true, isEnemy := true, isAlive := true, draws := [] }

def overlayCleared (a : ActorState) : Prop :=
  a.isApplyingTempAmmoParams = false ∧ a.tempAmmoAtk = 0 ∧ a.tempAmmoStateInfo = [] ∧
  a.tempAmmoElementId = none ∧ a.tempRangedHit = 0 ∧ a.tempAmmoHit = 0 ∧
  a.tempRangedCrit = 0 ∧ a.tempAmmoCrit = 0 ∧ a.ammoToConsumeCount = 0

def c6weapon : Weapon :=
  { ammoType := some "Arrow", rangedHit := some 10, rangedCrit := none, animationId := 5 }

def c6state : GameState :=
  { gameVars := fun _ => 0
    partyItems := []
    dataItems := fun _ => none }

def c6actor : ActorState :=
  { battleWeapon := some { c6weapon with animationId := 77 }
    originalWeaponData := some c6weapon
    baseHitStat := 1 / 2
    tempAmmoAtk := 8
    tempAmmoStateInfo := [(4, 1 / 2)]
    tempAmmoElementId := some 3
    tempRangedHit := 1 / 10
    tempAmmoHit := 1 / 5
    tempRangedCrit := 0
    tempAmmoCrit := 0
    isApplyingTempAmmoParams := true
    ammoToConsumeCount := 3 }

def c10cfg : List AmmoVarEntry := [⟨"Arrow", 7⟩]

def c10weapon : Weapon :=
  { ammoType := some "Arrow", rangedHit := none, rangedCrit := none, animationId := 1 }

def c10itemA : Item :=
  { id := 1, ammoType := some "Arrow", ammoAtk := some 2, ammoHitRate := none
    ammoCrit := none, ammoDmgType := some 3, ammoAnimationTag := none, ammoStates := [] }

def c10itemB : Item :=
  { id := 2, ammoType := some "Arrow", ammoAtk := some 9, ammoHitRate := none
    ammoCrit := none, ammoDmgType := some 4, ammoAnimationTag := none, ammoStates := [] }

def c10state0 : GameState :=
  { gameVars := fun _ => 0
    partyItems := [(c10itemA, 1), (c10itemB, 5)]
    dataItems := fun k => if k = 1 then some c10itemA else if k = 2 then some c10itemB else none }

def c10actor0 : ActorState :=
  { battleWeapon := some c10weapon
    originalWeaponData := some c10weapon
    baseHitStat := 1 / 2
    tempAmmoAtk := 0
    tempAmmoStateInfo := []
    tempAmmoElementId := none
    tempRangedHit := 0
    tempAmmoHit := 0
    tempRangedCrit := 0
    tempAmmoCrit := 0
    isApplyingTempAmmoParams := false
    ammoToConsumeCount := 0 }

def c10action : ActionItem :=
  { successRate := 100, isAttack := true, isSkill := false, multiShot := none
    strictAmmo := none, noAmmoAnimation := none, lowAmmoAnim := none
    noteHasUseAmmo := false, noteHasStrictAmmo := false, noteHasMultiShot := false }

def c10start : StartOutcome :=
  startAction c10cfg c10state0 c10actor0 true [c10weapon] c10action

/-- The party loses its last unit of item A between Start and Apply (an
external inventory event); the selection variable still points at A. -/
def c10state1 : GameState :=
  { c10start.game with partyItems := [(c10itemA, 0), (c10itemB, 5)] }

def c10hit : TargetResult := { isHit := true, isEnemy := true, isAlive := true, draws := [] }

def c10apply : ApplyOutcome :=
  applyHook c10cfg c10state1 c10start.actor true true [c10weapon] c10hit

/-- Claim C7: for every resource category with no configured selection slot,
ensureValidAmmoSelected returns null and leaves the slot store and the
inventory unchanged, and hasValidAmmo reports the selection valid. -/
theorem c7_no_slot_noop (cfg : List AmmoVarEntry) (s : GameState) (t : Option String)
    (h : getVariableIdForAmmoType cfg t = none) :
    ensureValidAmmoSelected cfg s t = (none, s) ∧ hasValidAmmo cfg s t = true := by
  constructor
  · unfold ensureValidAmmoSelected
    rw [h]
  · unfold hasValidAmmo
    rw [h]

theorem c7_witness :
    getVariableIdForAmmoType [] (some "Arrow") = none ∧
    ensureValidAmmoSelected [] c7state (some "Arrow") = (none, c7state) ∧
    hasValidAmmo [] c7state (some "Arrow") = true := by
  have h := c7_no_slot_noop [] c7state (some "Arrow") rfl
  exact ⟨rfl, h.1, h.2⟩

/-- Claim C5: a skill action carrying a StrictAmmo rate, performed by an
actor whose first weapon declares an ammo type for which hasValidAmmo is
false, hits with probability exactly rate/100, whatever value the engine's
normal hit computation would have produced. -/
theorem c5_strict_fallback (cfg : List AmmoVarEntry) (s : GameState) (a : ActorState)
    (inBattle : Bool) (realWeapons : List Weapon) (action : ActionItem)
    (strictVal : ℚ) (w : Weapon) (t : String) (defaultHit : ℚ)
    (hskill : action.isSkill = true)
    (hstrict : action.strictAmmo = some strictVal)
    (hw : (actorWeapons a inBattle realWeapons).head? = some w)
    (ht : w.ammoType = some t) (htne : t ≠ "")
    (hvalid : hasValidAmmo cfg s (some t) = false) :
    itemHit cfg s a true inBattle realWeapons action defaultHit = strictVal / 100 := by
  simp [itemHit, hskill, hstrict, hw, ht, htne, hvalid]

theorem c5_witness :
    hasValidAmmo c5cfg c5state (some "Arrow") = false ∧
    itemHit c5cfg c5state c5actor true true [c5weapon] c5action (7 / 10) = 30 / 100 := by
  refine ⟨rfl, ?_⟩
  exact c5_strict_fallback c5cfg c5state c5actor true [c5weapon] c5action 30 c5weapon
    "Arrow" (7 / 10) rfl rfl rfl rfl (by decide) rfl

/-- Claim C2 (amended): for a multi-shot action with shots = min(N, owned) at
least 1, the attack delta is round(shots * flat * P) with
P = 1 - (1 - p)^shots, where p is obtained by scaling the stat sum
(baseHitStat + rangedHit/100 + ammoHit/100) by successRate/100 FIRST and
then clamping the product to the band 0.01 to 0.95. -/
theorem c2_atk_delta (a : ActorState) (item : Item) (action : ActionItem) (s : GameState)
    (hms : 0 < (action.multiShot).getD 0)
    (hshots : 0 < min ((action.multiShot).getD 0) ((numItems s item : ℤ))) :
    (applyAmmoEffects a item action s).tempAmmoAtk =
      ((multiShotAtkDelta (min ((action.multiShot).getD 0) ((numItems s item : ℤ))).toNat
        (item.ammoAtk.getD 0)
        (clampHitChance ((xparamHit a + weaponNoteRangedHit a.battleWeapon / 100 +
          (item.ammoHitRate.getD 0) / 100) * (action.successRate / 100))) : ℤ) : ℚ) := by
  simp [applyAmmoEffects, hms, hshots]

theorem c2_counterexample :
    (applyAmmoEffects c2actor c2item c2action c2state).tempAmmoAtk = 10 ∧
    ((multiShotAtkDelta 1 (c2item.ammoAtk.getD 0)
      (specSingleShotHitChance c2actor.baseHitStat 0 0 c2action.successRate) : ℤ) : ℚ) = 5 ∧
    (applyAmmoEffects c2actor c2item c2action c2state).tempAmmoAtk ≠
      ((multiShotAtkDelta 1 (c2item.ammoAtk.getD 0)
        (specSingleShotHitChance c2actor.baseHitStat 0 0 c2action.successRate) : ℤ) : ℚ) := by
  have h1 : (applyAmmoEffects c2actor c2item c2action c2state).tempAmmoAtk = 10 := by
    norm_num [applyAmmoEffects, c2actor, c2item, c2action, c2state, numItems, List.find?,
      multiShotAtkDelta, jsRound, probAtLeastOneHit, clampHitChance, xparamHit,
      weaponNoteRangedHit, lowStockActive, min_def, max_def,
      show Int.toNat 1 = 1 from rfl]
  have h2 : ((multiShotAtkDelta 1 (c2item.ammoAtk.getD 0)
      (specSingleShotHitChance c2actor.baseHitStat 0 0 c2action.successRate) : ℤ) : ℚ) = 5 := by
    norm_num [c2item, c2actor, c2action, specSingleShotHitChance, multiShotAtkDelta, jsRound,
      probAtLeastOneHit, clampHitChance, min_def, max_def]
  refine ⟨h1, h2, ?_⟩
  rw [h1, h2]
  norm_num

theorem c2_witness :
    0 < (c2exAction.multiShot).getD 0 ∧
    (applyAmmoEffects c2exActor c2exItem c2exAction c2exState).tempAmmoAtk = 23 := by
  refine ⟨by decide, ?_⟩
  have h := c2_atk_delta c2exActor c2exItem c2exAction c2exState (by decide) (by decide)
  rw [h]
  norm_num [c2exActor, c2exItem, c2exAction, c2exState, numItems, List.find?,
    multiShotAtkDelta, jsRound, probAtLeastOneHit, clampHitChance, xparamHit,
    weaponNoteRangedHit, min_def, max_def, show Int.toNat 3 = 3 from rfl]

/-- Claim C3 (amended): with MultiShot configured but zero owned units of the
selected consumable, the compositor still arms the overlay, leaves the attack
delta at its incoming value and the status list empty, but sets the hit and
crit deltas to the consumable's base bonuses as fractions and the consumption
count to 1 (the single-shot default), not 0. -/
theorem c3_zero_shots (a : ActorState) (item : Item) (action : ActionItem) (s : GameState)
    (hms : 0 < (action.multiShot).getD 0)
    (hzero : numItems s item = 0) :
    (applyAmmoEffects a item action s).tempAmmoAtk = a.tempAmmoAtk ∧
    (applyAmmoEffects a item action s).tempAmmoStateInfo = [] ∧
    (applyAmmoEffects a item action s).tempAmmoHit = (item.ammoHitRate.getD 0) / 100 ∧
    (applyAmmoEffects a item action s).tempAmmoCrit = (item.ammoCrit.getD 0) / 100 ∧
    (applyAmmoEffects a item action s).ammoToConsumeCount = 1 ∧
    (applyAmmoEffects a item action s).isApplyingTempAmmoParams = true := by
  have hmin : min ((action.multiShot).getD 0) ((numItems s item : ℤ)) = 0 := by
    rw [hzero]
    push_cast
    omega
  simp [applyAmmoEffects, hms, hmin]

theorem c3_counterexample :
    ¬ ((applyAmmoEffects c3actor c3item c3action c3state).ammoToConsumeCount = 0 ∧
       (applyAmmoEffects c3actor c3item c3action c3state).tempAmmoHit = 0) := by
  intro hcl
  have h1 : (applyAmmoEffects c3actor c3item c3action c3state).ammoToConsumeCount = 1 := by
    norm_num [applyAmmoEffects, c3actor, c3item, c3action, c3state, numItems, List.find?]
  rw [h1] at hcl
  exact absurd hcl.1 (by norm_num)

theorem c3_witness :
    0 < (c3action.multiShot).getD 0 ∧
    (applyAmmoEffects c3actor c3item c3action c3state).ammoToConsumeCount = 1 ∧
    (applyAmmoEffects c3actor c3item c3action c3state).tempAmmoHit = 1 / 5 := by
  have h := c3_zero_shots c3actor c3item c3action c3state (by decide) rfl
  refine ⟨by decide, h.2.2.2.2.1, ?_⟩
  rw [h.2.2.1]
  norm_num [c3item]

/-- Claim C4: for a multi-shot action with at least one shot, the stored
hit-rate delta is geomSeriesBonus (H * m) shots / 100, with H the
consumable's hit bonus, m = 3/4 normally and m = 1/2 when a low-stock
threshold is configured and the owned count is below it; when H = 0 the
delta is 0. -/
theorem c4_hit_rate_delta (a : ActorState) (item : Item) (action : ActionItem) (s : GameState)
    (hms : 0 < (action.multiShot).getD 0)
    (hshots : 0 < min ((action.multiShot).getD 0) ((numItems s item : ℤ)))
    (hH : 0 ≤ item.ammoHitRate.getD 0) :
    (applyAmmoEffects a item action s).tempAmmoHit =
      if 0 < item.ammoHitRate.getD 0 then
        geomSeriesBonus (item.ammoHitRate.getD 0 *
          (if lowStockActive action (numItems s item) then (1 : ℚ) / 2 else 3 / 4))
          (min ((action.multiShot).getD 0) ((numItems s item : ℤ))).toNat / 100
      else 0 := by
  by_cases hpos : 0 < item.ammoHitRate.getD 0
  · by_cases hls : lowStockActive action (numItems s item) = true
    · have haH : 0 < item.ammoHitRate.getD 0 * (1 / 2 : ℚ) := mul_pos hpos (by norm_num)
      simp [applyAmmoEffects, hms, hshots, hpos, hls, haH]
    · have haH : 0 < item.ammoHitRate.getD 0 * (3 / 4 : ℚ) := mul_pos hpos (by norm_num)
      simp [applyAmmoEffects, hms, hshots, hpos, hls, haH]
  · have h0 : item.ammoHitRate.getD 0 = 0 := le_antisymm (not_lt.mp hpos) hH
    simp [applyAmmoEffects, hms, hshots, hpos, h0]

theorem c4_witness :
    0 < (c4action.multiShot).getD 0 ∧ (0 : ℚ) ≤ c4item.ammoHitRate.getD 0 ∧
    (applyAmmoEffects c4actor c4item c4action c4state).tempAmmoHit = 2625 / 10000 := by
  refine ⟨by decide, by norm_num [c4item], ?_⟩
  have h := c4_hit_rate_delta c4actor c4item c4action c4state (by decide) (by decide)
    (by norm_num [c4item])
  rw [h]
  norm_num [c4item, c4action, c4state, numItems, List.find?, lowStockActive,
    geomSeriesBonus, show Int.toNat 3 = 3 from rfl]

/-- Claim C8: for a per-shot hit probability strictly between 0 and 1, the
volley hit probability probAtLeastOneHit p shots is strictly increasing in
the shot count, and for a nonnegative flat bonus the rounded attack delta
multiShotAtkDelta is non-decreasing in the shot count. -/
theorem c8_monotone (p B : ℚ) (hp0 : 0 < p) (hp1 : p < 1) (hB : 0 ≤ B)
    (m n : ℕ) (hmn : m < n) :
    probAtLeastOneHit p m < probAtLeastOneHit p n ∧
    multiShotAtkDelta m B p ≤ multiShotAtkDelta n B p := by
  have hq0 : (0 : ℚ) < 1 - p := by linarith
  have hq1 : 1 - p < 1 := by linarith
  have hpow : (1 - p) ^ n < (1 - p) ^ m := pow_lt_pow_right_of_lt_one₀ hq0 hq1 hmn
  have hPlt : probAtLeastOneHit p m < probAtLeastOneHit p n := by
    unfold probAtLeastOneHit
    linarith
  refine ⟨hPlt, ?_⟩
  have hPm0 : 0 ≤ probAtLeastOneHit p m := by
    have := pow_le_one₀ (le_of_lt hq0) (le_of_lt hq1) (n := m)
    unfold probAtLeastOneHit
    linarith
  have hmul : (m : ℚ) * B * probAtLeastOneHit p m ≤ (n : ℚ) * B * probAtLeastOneHit p n := by
    have h1 : (m : ℚ) * B ≤ (n : ℚ) * B :=
      mul_le_mul_of_nonneg_right (by exact_mod_cast le_of_lt hmn) hB
    exact mul_le_mul h1 (le_of_lt hPlt) hPm0 (mul_nonneg (by positivity) hB)
  unfold multiShotAtkDelta jsRound
  exact Int.floor_le_floor (by linarith)

theorem c8_witness :
    (0 : ℚ) < 1 / 2 ∧ (1 / 2 : ℚ) < 1 ∧ (0 : ℚ) ≤ 8 ∧ (1 : ℕ) < 2 ∧
    probAtLeastOneHit (1 / 2) 1 < probAtLeastOneHit (1 / 2) 2 ∧
    multiShotAtkDelta 1 8 (1 / 2) ≤ multiShotAtkDelta 2 8 (1 / 2) := by
  have h := c8_monotone (1 / 2) 8 (by norm_num) (by norm_num) (by norm_num) 1 2 (by norm_num)
  exact ⟨by norm_num, by norm_num, by norm_num, by norm_num, h.1, h.2⟩

theorem applyHook_count_zero (cfg : List AmmoVarEntry) (s : GameState) (a : ActorState)
    (si ib : Bool) (ws : List Weapon) (t : TargetResult)
    (h : a.ammoToConsumeCount = 0) :
    (applyHook cfg s a si ib ws t).actor.ammoToConsumeCount = 0 ∧
    (applyHook cfg s a si ib ws t).deducted = none := by
  unfold applyHook
  split
  · split
    · rw [h]
      simp [h]
    · simp [h]
  · simp [h]

theorem applyToTargets_count_zero (cfg : List AmmoVarEntry) (si ib : Bool) (ws : List Weapon) :
    ∀ (ts : List TargetResult) (s : GameState) (a : ActorState),
      a.ammoToConsumeCount = 0 →
      (applyToTargets cfg s a si ib ws ts).2.2 = 0 ∧
      (applyToTargets cfg s a si ib ws ts).2.1.ammoToConsumeCount = 0 := by
  intro ts
  induction ts with
  | nil => intro s a h; exact ⟨rfl, h⟩
  | cons t ts ih =>
    intro s a h
    have hh := applyHook_count_zero cfg s a si ib ws t h
    have hr := ih (applyHook cfg s a si ib ws t).game (applyHook cfg s a si ib ws t).actor hh.1
    simp [applyToTargets, hh.2, hr.1, hr.2]

theorem applyHook_actor_cases (cfg : List AmmoVarEntry) (s : GameState) (a : ActorState)
    (si ib : Bool) (ws : List Weapon) (t : TargetResult) :
    (applyHook cfg s a si ib ws t).actor = a ∨
    (applyHook cfg s a si ib ws t).actor = { a with ammoToConsumeCount := 0 } := by
  unfold applyHook
  repeat' split
  all_goals first
  | (left; rfl)
  | (right; rfl)

theorem applyToTargets_overlay_preserved (cfg : List AmmoVarEntry) (si ib : Bool)
    (ws : List Weapon) :
    ∀ (ts : List TargetResult) (s : GameState) (a : ActorState),
      (applyToTargets cfg s a si ib ws ts).2.1.isApplyingTempAmmoParams =
        a.isApplyingTempAmmoParams ∧
      (applyToTargets cfg s a si ib ws ts).2.1.originalWeaponData = a.originalWeaponData := by
  intro ts
  induction ts with
  | nil => intro s a; exact ⟨rfl, rfl⟩
  | cons t ts ih =>
    intro s a
    have hr := ih (applyHook cfg s a si ib ws t).game (applyHook cfg s a si ib ws t).actor
    rcases applyHook_actor_cases cfg s a si ib ws t with hcase | hcase <;>
      rw [hcase] at hr <;>
      simp [applyToTargets, hcase, hr.1, hr.2]

/-- Claim C1 (amended): within one action, the Apply hooks deduct inventory
at most once, and the deduction happens exactly when the FIRST processed
target's result is a hit (and the re-selection at commit time finds an
instance), in which case the amount is exactly the pending consumption
count; a miss on the first target zeroes the count, so no deduction happens
even when a later target is hit; the pending count ends at zero either way. -/
theorem c1_consume_once (cfg : List AmmoVarEntry) (s : GameState) (a : ActorState)
    (ib : Bool) (ws : List Weapon) (t : TargetResult) (ts : List TargetResult)
    (harm : a.isApplyingTempAmmoParams = true)
    (hc : 0 < a.ammoToConsumeCount) :
    (applyToTargets cfg s a true ib ws (t :: ts)).2.2 =
      (if t.isHit = true ∧ (commitSelection cfg s a ib ws).isSome = true
       then a.ammoToConsumeCount else 0) ∧
    (applyToTargets cfg s a true ib ws (t :: ts)).2.1.ammoToConsumeCount = 0 := by
  by_cases hhit : t.isHit = true
  · rcases hwh : (actorWeapons a ib ws).head? with _ | w
    · have hook : (applyHook cfg s a true ib ws t).actor = { a with ammoToConsumeCount := 0 } ∧
          (applyHook cfg s a true ib ws t).deducted = none := by
        constructor <;> simp [applyHook, harm, hhit, hc, hwh]
      have hz := applyToTargets_count_zero cfg true ib ws ts
        (applyHook cfg s a true ib ws t).game (applyHook cfg s a true ib ws t).actor
        (by rw [hook.1])
      constructor
      · simp [applyToTargets, hook.2, hz.1, commitSelection, hwh, hhit]
      · simp [applyToTargets, hz.2]
    · rcases hsel : ensureValidAmmoSelected cfg s w.ammoType with ⟨oi, s1⟩
      rcases oi with _ | it
      · have hook : (applyHook cfg s a true ib ws t).actor = { a with ammoToConsumeCount := 0 } ∧
            (applyHook cfg s a true ib ws t).deducted = none := by
          constructor <;> simp [applyHook, harm, hhit, hc, hwh, hsel]
        have hz := applyToTargets_count_zero cfg true ib ws ts
          (applyHook cfg s a true ib ws t).game (applyHook cfg s a true ib ws t).actor
          (by rw [hook.1])
        constructor
        · simp [applyToTargets, hook.2, hz.1, commitSelection, hwh, hsel, hhit]
        · simp [applyToTargets, hz.2]
      · have hook : (applyHook cfg s a true ib ws t).actor = { a with ammoToConsumeCount := 0 } ∧
            (applyHook cfg s a true ib ws t).deducted = some (it.id, a.ammoToConsumeCount) := by
          constructor <;> simp [applyHook, harm, hhit, hc, hwh, hsel]
        have hz := applyToTargets_count_zero cfg true ib ws ts
          (applyHook cfg s a true ib ws t).game (applyHook cfg s a true ib ws t).actor
          (by rw [hook.1])
        constructor
        · simp [applyToTargets, hook.2, hz.1, commitSelection, hwh, hsel, hhit]
        · simp [applyToTargets, hz.2]
  · have hook : (applyHook cfg s a true ib ws t).actor = { a with ammoToConsumeCount := 0 } ∧
        (applyHook cfg s a true ib ws t).deducted = none := by
      constructor <;> simp [applyHook, harm, hhit]
    have hz := applyToTargets_count_zero cfg true ib ws ts
      (applyHook cfg s a true ib ws t).game (applyHook cfg s a true ib ws t).actor
      (by rw [hook.1])
    constructor
    · simp [applyToTargets, hook.2, hz.1, hhit]
    · simp [applyToTargets, hz.2]

theorem c1_counterexample :
    (c1actorOf 3).isApplyingTempAmmoParams = true ∧
    0 < (c1actorOf 3).ammoToConsumeCount ∧
    c1miss.isHit = false ∧ c1hit.isHit = true ∧
    (applyToTargets c1cfg c1state (c1actorOf 3) true true [c1weapon] [c1miss, c1hit]).2.2 = 0 ∧
    (applyToTargets c1cfg c1state (c1actorOf 3) true true [c1weapon] [c1miss, c1hit]).2.2 ≠
      (c1actorOf 3).ammoToConsumeCount := by
  refine ⟨rfl, by decide, rfl, rfl, by decide, by decide⟩

theorem c1_witness :
    (c1actorOf 2).isApplyingTempAmmoParams = true ∧
    0 < (c1actorOf 2).ammoToConsumeCount ∧
    (applyToTargets c1cfg c1state (c1actorOf 2) true true [c1weapon] [c1hit, c1hit]).2.2 = 2 ∧
    (applyToTargets c1cfg c1state (c1actorOf 2) true true [c1weapon]
      [c1hit, c1hit]).2.1.ammoToConsumeCount = 0 := by
  have h := c1_consume_once c1cfg c1state (c1actorOf 2) true [c1weapon] c1hit [c1hit]
    rfl (by decide)
  refine ⟨rfl, by decide, ?_, h.2⟩
  rw [h.1]
  decide

/-- Claim C9: when the Apply hook processes a missed target first, the miss
zeroes the pending consumption count, so the whole action deducts zero
inventory even though a later target in the same action is hit. -/
theorem c9_miss_blocks_commit (cfg : List AmmoVarEntry) (s : GameState) (a : ActorState)
    (ib : Bool) (ws : List Weapon) (t : TargetResult) (ts : List TargetResult)
    (harm : a.isApplyingTempAmmoParams = true)
    (hmiss : t.isHit = false)
    (hlater : ts.any (fun r => r.isHit) = true) :
    (applyHook cfg s a true ib ws t).actor.ammoToConsumeCount = 0 ∧
    (applyToTargets cfg s a true ib ws (t :: ts)).2.2 = 0 := by
  have hook : (applyHook cfg s a true ib ws t).actor = { a with ammoToConsumeCount := 0 } ∧
      (applyHook cfg s a true ib ws t).deducted = none := by
    constructor <;> simp [applyHook, harm, hmiss]
  have hz := applyToTargets_count_zero cfg true ib ws ts
    (applyHook cfg s a true ib ws t).game (applyHook cfg s a true ib ws t).actor
    (by rw [hook.1])
  constructor
  · rw [hook.1]
  · simp [applyToTargets, hook.2, hz.1]

theorem c9_witness :
    c9actor.isApplyingTempAmmoParams = true ∧ c9miss.isHit = false ∧
    List.any [c9hit] (fun r => r.isHit) = true ∧
    (applyHook c9cfg c9state c9actor true true [c9weapon] c9miss).actor.ammoToConsumeCount = 0 ∧
    (applyToTargets c9cfg c9state c9actor true true [c9weapon] [c9miss, c9hit]).2.2 = 0 := by
  have h := c9_miss_blocks_commit c9cfg c9state c9actor true [c9weapon] c9miss [c9hit]
    rfl rfl (by decide)
  exact ⟨rfl, rfl, by decide, h.1, h.2⟩

/-- Claim C6: for an actor whose overlay is armed and whose pristine weapon
copy exists, the End hook leaves the overlay unarmed with every delta zeroed
and the working weapon copy restored from the pristine copy — both when End
fires directly after Start (action aborted before Apply) and when any
sequence of Apply invocations ran in between; so the next action starts
from an unarmed overlay. -/
theorem c6_end_resets (cfg : List AmmoVarEntry) (s : GameState) (a : ActorState)
    (ib : Bool) (ws : List Weapon) (targets : List TargetResult) (anim : Nat) (w : Weapon)
    (harm : a.isApplyingTempAmmoParams = true)
    (hw : a.originalWeaponData = some w) :
    overlayCleared (endActionHook anim a true).2 ∧
    (endActionHook anim a true).2.battleWeapon = some w ∧
    overlayCleared (endActionHook anim
      (applyToTargets cfg s a true ib ws targets).2.1 true).2 ∧
    (endActionHook anim
      (applyToTargets cfg s a true ib ws targets).2.1 true).2.battleWeapon = some w := by
  have hpres := applyToTargets_overlay_preserved cfg true ib ws targets s a
  refine ⟨?_, ?_, ?_, ?_⟩
  · simp [endActionHook, harm, resetAmmoEffects, overlayCleared]
  · simp [endActionHook, harm, resetAmmoEffects, hw]
  · simp [endActionHook, hpres.1, harm, resetAmmoEffects, overlayCleared]
  · simp [endActionHook, hpres.1, harm, resetAmmoEffects, hpres.2, hw]

theorem c6_witness :
    c6actor.isApplyingTempAmmoParams = true ∧
    c6actor.originalWeaponData = some c6weapon ∧
    overlayCleared (endActionHook 9 c6actor true).2 ∧
    (endActionHook 9 c6actor true).2.battleWeapon = some c6weapon := by
  have h := c6_end_resets [] c6state c6actor true [] [] 9 c6weapon rfl rfl
  exact ⟨rfl, rfl, h.1, h.2.1⟩

/-- Claim C10: at Start the selection slot holds item 1 and the overlay's
modifiers come from item 1 (its element override 3); at Apply, the commit
re-runs the selection, which rewrites the persistent slot to item 2 and
deducts item 2 — the instance selected at Apply time, not the instance
whose modifiers were computed at Start. -/
theorem c10_commit_reselects :
    c10start.game.gameVars 7 = 1 ∧
    c10start.actor.tempAmmoElementId = some 3 ∧
    c10start.actor.ammoToConsumeCount = 1 ∧
    c10apply.deducted = some (2, 1) ∧
    c10apply.game.gameVars 7 = 2 ∧
    numItems c10apply.game c10itemB = 4 := by
  refine ⟨rfl, ?_, rfl, rfl, rfl, rfl⟩
  rfl
